import Mathlib

/-!
Shallow embedding of the feed-synchronization and optimistic-feedback client
logic of the content-generation-service mobile app, together with its transport
layer, and proofs of the spec's claims about them.

Sources embedded:
  - `src/frontend-app/screens/CompleteFeedScreen.js` (`loadPosts`,
    `handleLike`, `handleDislike`, `handleRefresh`, `handleLoadMore`)
  - `src/unnamed/part_000` (`ApiService.makeRequest`)
  - `src/frontend-app/constants/config.js` (the pagination limit)

The React `useState` cells become the fields of `FeedState`; each async handler
becomes a pure state transformer parameterised by the outcome of its single
network call (the handlers run sequentially in the model, matching the spec's
single-logical-stream concurrency model).
-/

/-- Embedded topic reference, as carried inside each post
(`topic: \x7b id, topic_name \x7d` in the JSON shape). -/
structure Topic where
  id : Nat
  topic_name : String
deriving DecidableEq

/-- A feed post as held by the client: identity `post_id`, content, timestamp
string, the two feedback flags, and the embedded topic. -/
structure Post where
  post_id : Nat
  post_content : String
  timestamp : String
  like_status : Bool
  dislike_status : Bool
  topic : Topic
deriving DecidableEq

/-- The `useState` cells of `CompleteFeedScreen` gathered into one record:
`posts`, `loading`, `refreshing`, `loadingMore`, `hasMore`, `error`, `offset`
(CompleteFeedScreen.js lines 16-22). -/
structure FeedState where
  posts : List Post
  loading : Bool
  refreshing : Bool
  loadingMore : Bool
  hasMore : Bool
  error : Option String
  offset : Nat
deriving DecidableEq

/-- Initial state of the screen component: empty posts, `loading = true`,
`hasMore = true`, no error, offset 0 (CompleteFeedScreen.js lines 16-22). -/
def initialFeedState : FeedState :=
  { posts := [], loading := true, refreshing := false, loadingMore := false,
    hasMore := true, error := none, offset := 0 }

/-- `LIMIT = 20` (CompleteFeedScreen.js line 24). -/
def LIMIT : Nat := 20

/-- Outcome of the single `fetch` inside `loadPosts`:
  - `failure`: a thrown network error or a non-ok response (both land in the
    `catch` block, lines 52-54 and 77);
  - `okNoPosts`: a 2xx response whose JSON body has no `posts` array
    (the `else` branch at line 73);
  - `okPosts page has_more`: a 2xx response carrying `data.posts` and an
    optional `data.has_more` field (lines 58-72). -/
inductive FeedFetchOutcome where
  | failure
  | okNoPosts
  | okPosts (page : List Post) (has_more : Option Bool)
deriving DecidableEq

/-- The hardcoded 5-post fallback data set by `loadPosts` in its `catch` block
(CompleteFeedScreen.js lines 83-124). The timestamps are client-generated
(`new Date().toISOString()`), modelled by the `now` parameter. -/
def placeholderPosts (now : String) : List Post :=
  [ { post_id := 1,
      post_content := "🧠 Your brain grows with effort! Embrace challenges and see mistakes as learning opportunities. Growth mindset is the key to unlocking your potential!",
      timestamp := now, like_status := false, dislike_status := false,
      topic := { id := 1, topic_name := "Growth Mindset" } },
    { post_id := 2,
      post_content := "📚 Active recall beats passive reading every time. Quiz yourself, create flashcards, teach others. Your brain learns by doing, not just seeing!",
      timestamp := now, like_status := false, dislike_status := false,
      topic := { id := 2, topic_name := "Study Techniques" } },
    { post_id := 3,
      post_content := "🔄 Spaced repetition is learning\x27s superpower. Review material at increasing intervals. Your memory will thank you with better retention!",
      timestamp := now, like_status := false, dislike_status := false,
      topic := { id := 3, topic_name := "Memory" } },
    { post_id := 4,
      post_content := "🎯 Focus on deep work! Single-tasking leads to better results than multitasking. Give your brain the attention it deserves for quality learning.",
      timestamp := now, like_status := false, dislike_status := false,
      topic := { id := 4, topic_name := "Focus" } },
    { post_id := 5,
      post_content := "💡 Learning is not a spectator sport. Engage actively with material through questioning, discussing, and applying concepts in real situations.",
      timestamp := now, like_status := false, dislike_status := false,
      topic := { id := 5, topic_name := "Active Learning" } } ]

/-- `loadPosts(reset)` of CompleteFeedScreen.js (lines 30-132) as a state
transformer. Step by step against the source:
  - `reset` branch sets `loading := true` and `offset := 0`, else
    `loadingMore := true` (lines 32-37); `setError(null)` (line 39);
  - on `data.posts` present: replace or append the held posts and set the
    offset accordingly (lines 58-65); `hasMore` from `data.has_more` when the
    field is present, else `posts.length === LIMIT` (lines 67-72);
  - on a 2xx body without `posts`: error banner text and `hasMore := false`
    (lines 73-76);
  - on a caught error: error banner text, fallback placeholder posts when
    `reset` (lines 77-126), `hasMore := false`;
  - `finally` clears all three loading flags (lines 127-131). -/
def loadPosts (s : FeedState) (reset : Bool) (now : String)
    (outcome : FeedFetchOutcome) : FeedState :=
  let s1 := if reset then { s with loading := true, offset := 0 }
            else { s with loadingMore := true }
  let s2 := { s1 with error := none }
  let s3 :=
    match outcome with
    | .okPosts page hm =>
        let s4 := if reset then { s2 with posts := page, offset := page.length }
                  else { s2 with posts := s2.posts ++ page,
                                 offset := s2.offset + page.length }
        match hm with
        | some b => { s4 with hasMore := b }
        | none => { s4 with hasMore := page.length == LIMIT }
    | .okNoPosts =>
        { s2 with error := some "No posts received from API", hasMore := false }
    | .failure =>
        let s4 := { s2 with error := some "Failed to load posts from API" }
        let s5 := if reset then { s4 with posts := placeholderPosts now } else s4
        { s5 with hasMore := false }
  { s3 with loading := false, refreshing := false, loadingMore := false }

/-- `handleRefresh` (lines 230-233): sets `refreshing := true` and runs
`loadPosts(true)`. -/
def handleRefresh (s : FeedState) (now : String)
    (outcome : FeedFetchOutcome) : FeedState :=
  loadPosts { s with refreshing := true } true now outcome

/-- The guard of `handleLoadMore` (lines 235-239): `loadPosts(false)` is issued
iff `!loadingMore && hasMore && !loading`; returns whether a request goes out. -/
def handleLoadMoreIssuesRequest (s : FeedState) : Bool :=
  !s.loadingMore && s.hasMore && !s.loading

/-- The optimistic local mutation of `handleLike` (lines 143-149): every held
post with the given identity gets `like_status := newLikeStatus` and
`dislike_status := false`. -/
def optimisticLike (posts : List Post) (postId : Nat)
    (newLikeStatus : Bool) : List Post :=
  posts.map (fun post =>
    if post.post_id == postId
    then { post with like_status := newLikeStatus, dislike_status := false }
    else post)

/-- The rollback of `handleLike` on request failure (lines 172-178): toggles
`like_status` of the matching posts, touching nothing else. -/
def rollbackLike (posts : List Post) (postId : Nat) : List Post :=
  posts.map (fun post =>
    if post.post_id == postId
    then { post with like_status := !post.like_status }
    else post)

/-- `handleLike(postId)` (lines 134-180) as a transformer of the held posts,
parameterised by whether the PUT request succeeds (`response.ok`): locate the
post (no-op when absent, line 137), apply the optimistic update, and on
failure apply the rollback. -/
def handleLike (posts : List Post) (postId : Nat)
    (requestOk : Bool) : List Post :=
  match posts.find? (fun p => p.post_id == postId) with
  | none => posts
  | some currentPost =>
      let optimistic := optimisticLike posts postId (!currentPost.like_status)
      if requestOk then optimistic else rollbackLike optimistic postId

/-- The optimistic local mutation of `handleDislike` (lines 191-197). -/
def optimisticDislike (posts : List Post) (postId : Nat)
    (newDislikeStatus : Bool) : List Post :=
  posts.map (fun post =>
    if post.post_id == postId
    then { post with dislike_status := newDislikeStatus, like_status := false }
    else post)

/-- The rollback of `handleDislike` on request failure (lines 220-226). -/
def rollbackDislike (posts : List Post) (postId : Nat) : List Post :=
  posts.map (fun post =>
    if post.post_id == postId
    then { post with dislike_status := !post.dislike_status }
    else post)

/-- `handleDislike(postId)` (lines 182-228), the mirror of `handleLike`. -/
def handleDislike (posts : List Post) (postId : Nat)
    (requestOk : Bool) : List Post :=
  match posts.find? (fun p => p.post_id == postId) with
  | none => posts
  | some currentPost =>
      let optimistic :=
        optimisticDislike posts postId (!currentPost.dislike_status)
      if requestOk then optimistic else rollbackDislike optimistic postId

/-- One page as returned by the feed endpoint: the `posts` array plus the
optional `has_more` field. -/
structure FeedPage where
  posts : List Post
  has_more : Option Bool
deriving DecidableEq

/-- A sequence of successful append loads (`loadPosts(false)` each receiving a
page), folded over the state in request order. -/
def appendLoads (s : FeedState) (now : String)
    (pages : List FeedPage) : FeedState :=
  pages.foldl
    (fun st pg => loadPosts st false now (FeedFetchOutcome.okPosts pg.posts pg.has_more))
    s

/-- A session: from the initial state, a successful reset load returning `p1`
followed by successful appends returning `rest` in order. -/
def sessionRun (now : String) (p1 : FeedPage) (rest : List FeedPage) : FeedState :=
  appendLoads
    (loadPosts initialFeedState true now (FeedFetchOutcome.okPosts p1.posts p1.has_more))
    now rest

/-- The data-model invariant on one post: the two feedback flags are never
both true. -/
def mutualExclusive (p : Post) : Bool :=
  !(p.like_status && p.dislike_status)

/-- A user feedback action: tap-like or tap-dislike. -/
inductive FeedbackAction where
  | like
  | dislike
deriving DecidableEq

/-- One completed feedback operation: target identity, which button, and
whether the PUT succeeded. -/
def applyFeedback (posts : List Post) (op : Nat × FeedbackAction × Bool) : List Post :=
  match op.2.1 with
  | .like => handleLike posts op.1 op.2.2
  | .dislike => handleDislike posts op.1 op.2.2

/-- A sequence of feedback operations, each resolving before the next begins. -/
def runFeedback (posts : List Post) (ops : List (Nat × FeedbackAction × Bool)) : List Post :=
  ops.foldl applyFeedback posts

/-- Transport-error taxonomy of the spec, mapped 1:1 onto the three throw
sites of `ApiService.makeRequest` (src/unnamed/part_000):
  - `MissingCredential` = throw at line 13 ("API key not found...");
  - `InvalidCredential` = throw at line 30 ("Invalid API key...") on 401;
  - `HttpError status` = throw at line 34 ("HTTP error! status...") on any
    other non-2xx status. -/
inductive TransportError where
  | MissingCredential
  | InvalidCredential
  | HttpError (status : Nat)
deriving DecidableEq

/-- An HTTP response, reduced to its status code (all `makeRequest` inspects). -/
structure HttpResponse where
  status : Nat
deriving DecidableEq

/-- `response.ok` of the fetch API: status in the 2xx range. -/
def HttpResponse.ok (r : HttpResponse) : Bool :=
  decide (200 ≤ r.status ∧ r.status ≤ 299)

/-- The JS guard `if (!apiKey)`: truthy for a null key and for the empty
string (`SecureStorage.getApiKey` returns null when absent). -/
def credentialMissing : Option String → Bool
  | none => true
  | some k => k.isEmpty

/-- Result of `makeRequest`: the typed outcome together with whether the
`fetch` call was reached at all. -/
structure RequestResult where
  result : Except TransportError HttpResponse
  networkAttempted : Bool

/-- `ApiService.makeRequest` (src/unnamed/part_000 lines 8-44) as a function of
the stored credential and of the response the network would give: fail fast
before `fetch` when the key is missing; then 401 check; then the generic
non-2xx check; else success. -/
def ApiService.makeRequest (apiKey : Option String)
    (resp : HttpResponse) : RequestResult :=
  if credentialMissing apiKey then
    { result := Except.error TransportError.MissingCredential,
      networkAttempted := false }
  else if resp.status == 401 then
    { result := Except.error TransportError.InvalidCredential,
      networkAttempted := true }
  else if !resp.ok then
    { result := Except.error (TransportError.HttpError resp.status),
      networkAttempted := true }
  else
    { result := Except.ok resp, networkAttempted := true }

/-- A concrete held post used in counterexamples and witnesses. -/
def samplePost : Post :=
  { post_id := 100, post_content := "held content", timestamp := "t0",
    like_status := false, dislike_status := false,
    topic := { id := 9, topic_name := "Held" } }

/-- A concrete idle state holding one post, with the offset invariant intact. -/
def heldState : FeedState :=
  { posts := [samplePost], loading := false, refreshing := false,
    loadingMore := false, hasMore := true, error := none, offset := 1 }

/-! ### Helper lemmas shared across claims -/

/-- One successful append: posts are concatenated and the offset advances by
the page length, whatever the `has_more` field carries. -/
theorem loadPosts_append_okPosts (s : FeedState) (now : String)
    (page : List Post) (hm : Option Bool) :
    (loadPosts s false now (FeedFetchOutcome.okPosts page hm)).posts = s.posts ++ page ∧
    (loadPosts s false now (FeedFetchOutcome.okPosts page hm)).offset = s.offset + page.length := by
  cases hm <;> exact ⟨rfl, rfl⟩

/-- One successful reset load: posts are replaced by the page and the offset
becomes the page length. -/
theorem loadPosts_reset_okPosts (s : FeedState) (now : String)
    (page : List Post) (hm : Option Bool) :
    (loadPosts s true now (FeedFetchOutcome.okPosts page hm)).posts = page ∧
    (loadPosts s true now (FeedFetchOutcome.okPosts page hm)).offset = page.length := by
  cases hm <;> exact ⟨rfl, rfl⟩

theorem appendLoads_cons (s : FeedState) (now : String) (pg : FeedPage)
    (rest : List FeedPage) :
    appendLoads s now (pg :: rest)
      = appendLoads (loadPosts s false now (FeedFetchOutcome.okPosts pg.posts pg.has_more)) now rest := rfl

/-- Folded appends: held posts are the prior posts followed by the pages in
request order, and the offset advances by the total of the page sizes. -/
theorem appendLoads_spec (now : String) (pages : List FeedPage) :
    ∀ s : FeedState,
    (appendLoads s now pages).posts = s.posts ++ (pages.map FeedPage.posts).flatten ∧
    (appendLoads s now pages).offset
      = s.offset + (pages.map (fun pg => pg.posts.length)).sum := by
  induction pages with
  | nil => intro s; simp [appendLoads]
  | cons pg rest ih =>
      intro s
      rw [appendLoads_cons]
      obtain ⟨hp, ho⟩ :=
        ih (loadPosts s false now (FeedFetchOutcome.okPosts pg.posts pg.has_more))
      obtain ⟨hp1, ho1⟩ := loadPosts_append_okPosts s now pg.posts pg.has_more
      constructor
      · rw [hp, hp1]; simp [List.append_assoc]
      · rw [ho, ho1]; simp [Nat.add_assoc]

/-- A whole session: posts are the reset page followed by the appended pages. -/
theorem sessionRun_posts (now : String) (p1 : FeedPage) (rest : List FeedPage) :
    (sessionRun now p1 rest).posts = p1.posts ++ (rest.map FeedPage.posts).flatten := by
  unfold sessionRun
  obtain ⟨hp, -⟩ := appendLoads_spec now rest
    (loadPosts initialFeedState true now (FeedFetchOutcome.okPosts p1.posts p1.has_more))
  rw [hp, (loadPosts_reset_okPosts initialFeedState now p1.posts p1.has_more).1]

/-- A whole session: the offset is the total size of all fetched pages. -/
theorem sessionRun_offset (now : String) (p1 : FeedPage) (rest : List FeedPage) :
    (sessionRun now p1 rest).offset
      = p1.posts.length + (rest.map (fun pg => pg.posts.length)).sum := by
  unfold sessionRun
  obtain ⟨-, ho⟩ := appendLoads_spec now rest
    (loadPosts initialFeedState true now (FeedFetchOutcome.okPosts p1.posts p1.has_more))
  rw [ho, (loadPosts_reset_okPosts initialFeedState now p1.posts p1.has_more).2]

/-! ### C1 -/

/-- C1 counterexample: a refresh (`handleRefresh`, i.e. `loadPosts(true)`) that
fails while one post is held does NOT preserve the held posts — the fallback
branch runs on every `reset` load, so the held post is replaced by the 5
placeholder posts. This refutes the claim that refresh-triggered failures
preserve held content and that placeholders appear only on empty-state reset
failures. -/
theorem refresh_failure_replaces_held_posts :
    (handleRefresh heldState "t1" FeedFetchOutcome.failure).posts
      = placeholderPosts "t1" ∧
    (handleRefresh heldState "t1" FeedFetchOutcome.failure).posts
      ≠ heldState.posts := by
  refine ⟨rfl, ?_⟩
  intro h
  have hlen := congrArg List.length h
  simp [handleRefresh, loadPosts, placeholderPosts, heldState] at hlen

/-- C1 amended: every failed reset load — initial or refresh, whether or not
posts are held — substitutes the fixed placeholder set; only append
(load-more) failures preserve the held posts unchanged. -/
theorem reset_failure_always_substitutes_placeholders
    (s : FeedState) (now : String) :
    (loadPosts s true now FeedFetchOutcome.failure).posts = placeholderPosts now ∧
    (handleRefresh s now FeedFetchOutcome.failure).posts = placeholderPosts now ∧
    (loadPosts s false now FeedFetchOutcome.failure).posts = s.posts := by
  exact ⟨rfl, rfl, rfl⟩

/-! ### C3 -/

/-- C3 counterexample: the very first load can complete (all loading flags
cleared) with an empty held sequence — a successful response whose `posts`
array is empty is stored as-is, so "after the very first load completes, the
held post sequence is never empty" fails. -/
theorem initial_empty_page_leaves_feed_empty :
    (loadPosts initialFeedState true "t" (FeedFetchOutcome.okPosts [] none)).posts = [] ∧
    (loadPosts initialFeedState true "t" (FeedFetchOutcome.okPosts [] none)).loading = false := by
  exact ⟨rfl, rfl⟩

/-- C3 amended: when the very first load throws a network error, the held
posts become the fixed 5-item placeholder set with zero-valued feedback
flags, `hasMore` becomes false and the error state is set; a successful
initial load, however, stores whatever page the server returned and so may
leave the sequence empty. -/
theorem initial_failure_substitutes_placeholder_set (now : String) :
    (loadPosts initialFeedState true now FeedFetchOutcome.failure).posts
      = placeholderPosts now ∧
    (placeholderPosts now).length = 5 ∧
    (placeholderPosts now).all (fun p => !p.like_status && !p.dislike_status) = true ∧
    (loadPosts initialFeedState true now FeedFetchOutcome.failure).hasMore = false ∧
    (loadPosts initialFeedState true now FeedFetchOutcome.failure).error
      = some "Failed to load posts from API" := by
  exact ⟨rfl, rfl, rfl, rfl, rfl⟩

/-! ### C10 -/

/-- C10: a reset load that gets a 2xx response without a `posts` array leaves
the held posts untouched and substitutes no placeholders, but the offset was
already reset to 0 at the start of the load and `hasMore` is set to false, so
with any posts held the offset no longer equals the held count. -/
theorem reset_no_posts_field_nonatomic (s : FeedState) (now : String) :
    (loadPosts s true now FeedFetchOutcome.okNoPosts).posts = s.posts ∧
    (loadPosts s true now FeedFetchOutcome.okNoPosts).offset = 0 ∧
    (loadPosts s true now FeedFetchOutcome.okNoPosts).hasMore = false ∧
    (loadPosts s true now FeedFetchOutcome.okNoPosts).error
      = some "No posts received from API" ∧
    (s.posts ≠ [] →
      (loadPosts s true now FeedFetchOutcome.okNoPosts).offset
        ≠ (loadPosts s true now FeedFetchOutcome.okNoPosts).posts.length) := by
  refine ⟨rfl, rfl, rfl, rfl, ?_⟩
  intro hne
  have h1 : (loadPosts s true now FeedFetchOutcome.okNoPosts).offset = 0 := rfl
  have h2 : (loadPosts s true now FeedFetchOutcome.okNoPosts).posts = s.posts := rfl
  rw [h1, h2]
  intro h0
  exact hne (List.length_eq_zero.mp h0.symm)

/-- C10 witness: at the concrete held state (one post, offset 1), the data
error leaves the post but zeroes the offset, which no longer matches the held
count. -/
theorem reset_no_posts_field_nonatomic_witness :
    (loadPosts heldState true "t" FeedFetchOutcome.okNoPosts).posts = [samplePost] ∧
    (loadPosts heldState true "t" FeedFetchOutcome.okNoPosts).offset = 0 ∧
    (loadPosts heldState true "t" FeedFetchOutcome.okNoPosts).offset
      ≠ (loadPosts heldState true "t" FeedFetchOutcome.okNoPosts).posts.length := by
  have h := reset_no_posts_field_nonatomic heldState "t"
  exact ⟨h.1, h.2.1, h.2.2.2.2 (List.cons_ne_nil samplePost [])⟩

/-! ### C2 -/

/-- A post the server repeats across two pages in the counterexample run. -/
def dupPost : Post :=
  { post_id := 1, post_content := "repeated", timestamp := "t0",
    like_status := false, dislike_status := false,
    topic := { id := 1, topic_name := "Dup" } }

/-- C2 counterexample: the controller performs no deduplication — when the
server returns the same `post_id` on the reset page and again on an appended
page, the held sequence contains two posts with equal identity, so the
deduplicated-by-identity invariant fails. -/
theorem duplicate_page_yields_duplicate_ids :
    ¬ ((sessionRun "t" { posts := [dupPost], has_more := some true }
          [{ posts := [dupPost], has_more := none }]).posts.Pairwise
        (fun a b => a.post_id ≠ b.post_id)) := by
  intro h
  rw [sessionRun_posts] at h
  simp [List.pairwise_cons] at h

/-- C2 amended: no deduplication is performed — the held sequence is exactly
the concatenation of the returned pages — so identities are pairwise distinct
precisely when the server never repeats a `post_id` across the pages of the
session. -/
theorem held_posts_unique_when_server_pages_unique (now : String)
    (p1 : FeedPage) (rest : List FeedPage)
    (h : (p1.posts ++ (rest.map FeedPage.posts).flatten).Pairwise
          (fun a b => a.post_id ≠ b.post_id)) :
    (sessionRun now p1 rest).posts.Pairwise (fun a b => a.post_id ≠ b.post_id) := by
  rw [sessionRun_posts]
  exact h

/-- A second concrete post, with an identity distinct from `samplePost`. -/
def otherPost : Post :=
  { post_id := 101, post_content := "other content", timestamp := "t0",
    like_status := false, dislike_status := false,
    topic := { id := 9, topic_name := "Held" } }

/-- C2 witness: a session whose two pages carry distinct identities yields a
held sequence with pairwise distinct identities. -/
theorem held_posts_unique_witness :
    (sessionRun "t" { posts := [samplePost], has_more := some true }
        [{ posts := [otherPost], has_more := none }]).posts.Pairwise
      (fun a b => a.post_id ≠ b.post_id) := by
  apply held_posts_unique_when_server_pages_unique
  simp [List.pairwise_cons, samplePost, otherPost]

/-! ### C5 -/

/-- C5: on every successful feed load, `hasMore` is the server `has_more`
field when present, else the comparison of the returned page size with the
limit; a page strictly smaller than the limit (and no server flag) yields
`hasMore = false`, and the load-more guard then issues no further request. -/
theorem hasMore_from_server_flag_or_page_size (s : FeedState) (reset : Bool)
    (now : String) (page : List Post) (hm : Option Bool) :
    (∀ b : Bool, hm = some b →
      (loadPosts s reset now (FeedFetchOutcome.okPosts page hm)).hasMore = b) ∧
    (hm = none →
      (loadPosts s reset now (FeedFetchOutcome.okPosts page hm)).hasMore
        = (page.length == LIMIT)) ∧
    (hm = none → page.length < LIMIT →
      (loadPosts s reset now (FeedFetchOutcome.okPosts page hm)).hasMore = false ∧
      handleLoadMoreIssuesRequest
        (loadPosts s reset now (FeedFetchOutcome.okPosts page hm)) = false) := by
  refine ⟨?_, ?_, ?_⟩
  · rintro b rfl
    cases reset <;> rfl
  · rintro rfl
    cases reset <;> rfl
  · rintro rfl hlt
    have hne : (page.length == LIMIT) = false := by
      simp [Nat.ne_of_lt hlt]
    have h1 : (loadPosts s reset now (FeedFetchOutcome.okPosts page none)).hasMore
        = (page.length == LIMIT) := by cases reset <;> rfl
    refine ⟨h1.trans hne, ?_⟩
    have h2 : handleLoadMoreIssuesRequest
        (loadPosts s reset now (FeedFetchOutcome.okPosts page none))
        = (true && (page.length == LIMIT) && true) := by cases reset <;> rfl
    rw [h2, hne]
    rfl

/-- C5 witness: the spec's example — an initial load returning 5 posts with no
`has_more` field computes `hasMore = (5 == 20) = false`, and a subsequent
load-more trigger issues no request; with an explicit server flag the flag
wins. -/
theorem hasMore_inference_witness :
    (loadPosts initialFeedState true "t"
        (FeedFetchOutcome.okPosts (List.replicate 5 samplePost) none)).hasMore = false ∧
    handleLoadMoreIssuesRequest
      (loadPosts initialFeedState true "t"
        (FeedFetchOutcome.okPosts (List.replicate 5 samplePost) none)) = false ∧
    (loadPosts initialFeedState true "t"
        (FeedFetchOutcome.okPosts (List.replicate 5 samplePost) (some true))).hasMore = true := by
  have h3 := (hasMore_from_server_flag_or_page_size initialFeedState true "t"
      (List.replicate 5 samplePost) none).2.2 rfl (by simp [LIMIT])
  have h1 := (hasMore_from_server_flag_or_page_size initialFeedState true "t"
      (List.replicate 5 samplePost) (some true)).1 true rfl
  exact ⟨h3.1, h3.2, h1⟩

/-! ### C6 -/

/-- C6: the offset tracks exactly the fetched item counts — after a successful
reset load the offset equals the count of posts held; each successful append
advances it by exactly the returned page size; hence over a session whose
pages have sizes `k1..kN` (reset page first) the offset is `k1+...+kN`, and it
always equals the held count. -/
theorem offset_tracks_held_count (now : String) (p1 : FeedPage)
    (rest : List FeedPage) :
    (sessionRun now p1 rest).offset
      = p1.posts.length + (rest.map (fun pg => pg.posts.length)).sum ∧
    (sessionRun now p1 rest).offset = (sessionRun now p1 rest).posts.length ∧
    (∀ (s : FeedState) (page : List Post) (hm : Option Bool),
      (loadPosts s true now (FeedFetchOutcome.okPosts page hm)).offset
        = (loadPosts s true now (FeedFetchOutcome.okPosts page hm)).posts.length) ∧
    (∀ (s : FeedState) (page : List Post) (hm : Option Bool),
      (loadPosts s false now (FeedFetchOutcome.okPosts page hm)).offset
        = s.offset + page.length) := by
  refine ⟨sessionRun_offset now p1 rest, ?_, ?_, ?_⟩
  · rw [sessionRun_offset now p1 rest, sessionRun_posts now p1 rest]
    simp only [List.length_append, List.length_flatten, List.map_map]
    rfl
  · intro s page hm
    obtain ⟨hp, ho⟩ := loadPosts_reset_okPosts s now page hm
    rw [hp, ho]
  · intro s page hm
    exact (loadPosts_append_okPosts s now page hm).2

/-! ### C7 -/

/-- C7: over a session the held sequence is exactly the concatenation of the
returned pages in request order; an append never disturbs the existing prefix
(it extends the sequence on the right); and a refresh replaces the sequence
wholesale with the returned page. -/
theorem held_posts_concat_of_pages (now : String) (p1 : FeedPage)
    (rest : List FeedPage) :
    (sessionRun now p1 rest).posts
      = p1.posts ++ (rest.map FeedPage.posts).flatten ∧
    (∀ (s : FeedState) (page : List Post) (hm : Option Bool),
      (loadPosts s false now (FeedFetchOutcome.okPosts page hm)).posts
        = s.posts ++ page) ∧
    (∀ (s : FeedState) (page : List Post) (hm : Option Bool),
      (handleRefresh s now (FeedFetchOutcome.okPosts page hm)).posts = page) := by
  refine ⟨sessionRun_posts now p1 rest, ?_, ?_⟩
  · intro s page hm
    exact (loadPosts_append_okPosts s now page hm).1
  · intro s page hm
    exact (loadPosts_reset_okPosts { s with refreshing := true } now page hm).1

/-! ### C4 -/

/-- C4: when the PUT of a like toggle fails, the final held list is the
original list with, on the targeted post, `like_status` back at its pre-toggle
value and `dislike_status` at the value the optimistic step set (false, not
the pre-toggle dislike value); every other post is untouched. Mirror statement
for a dislike toggle. -/
theorem feedback_failure_reverts_only_toggled_flag (posts : List Post)
    (postId : Nat) (q : Post)
    (hfind : posts.find? (fun p => p.post_id == postId) = some q) :
    handleLike posts postId false
      = posts.map (fun p =>
          if p.post_id == postId
          then { p with like_status := q.like_status, dislike_status := false }
          else p) ∧
    handleDislike posts postId false
      = posts.map (fun p =>
          if p.post_id == postId
          then { p with dislike_status := q.dislike_status, like_status := false }
          else p) := by
  constructor
  · unfold handleLike
    rw [hfind]
    simp only [Bool.false_eq_true, if_false]
    rw [rollbackLike, optimisticLike, List.map_map]
    congr 1
    funext p
    by_cases hid : (p.post_id == postId) = true
    · simp [Function.comp, hid, Bool.not_not]
    · simp [Function.comp, hid]
  · unfold handleDislike
    rw [hfind]
    simp only [Bool.false_eq_true, if_false]
    rw [rollbackDislike, optimisticDislike, List.map_map]
    congr 1
    funext p
    by_cases hid : (p.post_id == postId) = true
    · simp [Function.comp, hid, Bool.not_not]
    · simp [Function.comp, hid]

/-- The post of the spec's worked example: id 42, not liked, disliked. -/
def examplePost42 : Post :=
  { post_id := 42, post_content := "example", timestamp := "t0",
    like_status := false, dislike_status := true,
    topic := { id := 2, topic_name := "Example" } }

/-- C4 witness: `setLike(42)` on a held post with like=false, dislike=true
whose PUT fails ends with like=false and dislike=false — the cleared dislike
is not restored. -/
theorem feedback_failure_rollback_witness :
    handleLike [examplePost42] 42 false
      = [{ examplePost42 with like_status := false, dislike_status := false }] := by
  have h := (feedback_failure_reverts_only_toggled_flag [examplePost42] 42
      examplePost42 rfl).1
  rw [h]
  rfl

/-! ### C8 -/

theorem mutualExclusive_of_dislike_false (p : Post)
    (h : p.dislike_status = false) : mutualExclusive p = true := by
  simp [mutualExclusive, h]

theorem mutualExclusive_of_like_false (p : Post)
    (h : p.like_status = false) : mutualExclusive p = true := by
  simp [mutualExclusive, h]

/-- The optimistic like mutation keeps the invariant on every post: targeted
posts get `dislike_status := false`, others are unchanged. -/
theorem optimisticLike_preserves_inv (posts : List Post) (postId : Nat)
    (b : Bool) (h : ∀ p ∈ posts, mutualExclusive p = true) :
    ∀ p ∈ optimisticLike posts postId b, mutualExclusive p = true := by
  intro p hp
  rw [optimisticLike, List.mem_map] at hp
  obtain ⟨p0, hp0, rfl⟩ := hp
  by_cases hid : (p0.post_id == postId) = true
  · simp only [hid, if_true]
    exact mutualExclusive_of_dislike_false _ rfl
  · simp only [hid, if_false]
    exact h p0 hp0

/-- The optimistic dislike mutation keeps the invariant on every post. -/
theorem optimisticDislike_preserves_inv (posts : List Post) (postId : Nat)
    (b : Bool) (h : ∀ p ∈ posts, mutualExclusive p = true) :
    ∀ p ∈ optimisticDislike posts postId b, mutualExclusive p = true := by
  intro p hp
  rw [optimisticDislike, List.mem_map] at hp
  obtain ⟨p0, hp0, rfl⟩ := hp
  by_cases hid : (p0.post_id == postId) = true
  · simp only [hid, if_true]
    exact mutualExclusive_of_like_false _ rfl
  · simp only [hid, if_false]
    exact h p0 hp0

/-- A complete like operation (optimistic step plus rollback when the request
fails) keeps the invariant on every held post. -/
theorem handleLike_preserves_inv (posts : List Post) (postId : Nat) (ok : Bool)
    (h : ∀ p ∈ posts, mutualExclusive p = true) :
    ∀ p ∈ handleLike posts postId ok, mutualExclusive p = true := by
  intro p hp
  unfold handleLike at hp
  split at hp
  · exact h p hp
  · split at hp
    · exact optimisticLike_preserves_inv posts postId _ h p hp
    · rw [rollbackLike, optimisticLike, List.map_map, List.mem_map] at hp
      obtain ⟨p0, hp0, rfl⟩ := hp
      by_cases hid : (p0.post_id == postId) = true
      · simp only [Function.comp, hid, if_true]
        exact mutualExclusive_of_dislike_false _ rfl
      · simp only [Function.comp, hid, if_false, Bool.false_eq_true]
        exact h p0 hp0

/-- A complete dislike operation keeps the invariant on every held post. -/
theorem handleDislike_preserves_inv (posts : List Post) (postId : Nat)
    (ok : Bool) (h : ∀ p ∈ posts, mutualExclusive p = true) :
    ∀ p ∈ handleDislike posts postId ok, mutualExclusive p = true := by
  intro p hp
  unfold handleDislike at hp
  split at hp
  · exact h p hp
  · split at hp
    · exact optimisticDislike_preserves_inv posts postId _ h p hp
    · rw [rollbackDislike, optimisticDislike, List.map_map, List.mem_map] at hp
      obtain ⟨p0, hp0, rfl⟩ := hp
      by_cases hid : (p0.post_id == postId) = true
      · simp only [Function.comp, hid, if_true]
        exact mutualExclusive_of_like_false _ rfl
      · simp only [Function.comp, hid, if_false, Bool.false_eq_true]
        exact h p0 hp0

theorem applyFeedback_preserves_inv (posts : List Post)
    (op : Nat × FeedbackAction × Bool)
    (h : ∀ p ∈ posts, mutualExclusive p = true) :
    ∀ p ∈ applyFeedback posts op, mutualExclusive p = true := by
  obtain ⟨postId, act, ok⟩ := op
  cases act
  · exact handleLike_preserves_inv posts postId ok h
  · exact handleDislike_preserves_inv posts postId ok h

/-- C8: starting from held posts that satisfy the mutual-exclusion invariant,
every sequence of like/dislike operations (each resolving before the next
begins, with either request outcome) keeps `like_status` and `dislike_status`
never both true on every post — both after every completed operation and
already at the moment of each optimistic local mutation. -/
theorem like_dislike_never_both_true (posts : List Post)
    (ops : List (Nat × FeedbackAction × Bool))
    (h : ∀ p ∈ posts, mutualExclusive p = true) :
    (∀ p ∈ runFeedback posts ops, mutualExclusive p = true) ∧
    (∀ (postId : Nat) (b : Bool),
      ∀ p ∈ optimisticLike posts postId b, mutualExclusive p = true) ∧
    (∀ (postId : Nat) (b : Bool),
      ∀ p ∈ optimisticDislike posts postId b, mutualExclusive p = true) := by
  refine ⟨?_, ?_, ?_⟩
  · induction ops generalizing posts with
    | nil => exact h
    | cons op rest ih =>
        have hstep := applyFeedback_preserves_inv posts op h
        exact ih (applyFeedback posts op) hstep
  · intro postId b
    exact optimisticLike_preserves_inv posts postId b h
  · intro postId b
    exact optimisticDislike_preserves_inv posts postId b h

/-- C8 witness: a disliked post taken through a failing like toggle and then a
successful dislike toggle never ends with both flags set. -/
theorem like_dislike_never_both_true_witness :
    (runFeedback [examplePost42]
        [(42, FeedbackAction.like, false), (42, FeedbackAction.dislike, true)]).all
      mutualExclusive = true := by
  have h := (like_dislike_never_both_true [examplePost42]
      [(42, FeedbackAction.like, false), (42, FeedbackAction.dislike, true)]
      (by intro p hp; rw [List.mem_singleton] at hp; subst hp; rfl)).1
  exact List.all_eq_true.mpr h

/-! ### C9 -/

/-- C9: for every transport request — with a missing credential the call fails
with `MissingCredential` and no network call is attempted; with a credential
configured, a 401 response yields `InvalidCredential`, and every other
non-2xx status yields `HttpError` carrying that status. -/
theorem makeRequest_error_taxonomy (apiKey : Option String) (resp : HttpResponse) :
    (credentialMissing apiKey = true →
      (ApiService.makeRequest apiKey resp).result
          = Except.error TransportError.MissingCredential ∧
      (ApiService.makeRequest apiKey resp).networkAttempted = false) ∧
    (credentialMissing apiKey = false → resp.status = 401 →
      (ApiService.makeRequest apiKey resp).result
          = Except.error TransportError.InvalidCredential) ∧
    (credentialMissing apiKey = false → resp.status ≠ 401 → resp.ok = false →
      (ApiService.makeRequest apiKey resp).result
          = Except.error (TransportError.HttpError resp.status)) := by
  refine ⟨?_, ?_, ?_⟩
  · intro hmiss
    rw [ApiService.makeRequest]
    simp [hmiss]
  · intro hmiss h401
    rw [ApiService.makeRequest]
    simp [hmiss, h401]
  · intro hmiss h401 hok
    rw [ApiService.makeRequest]
    have h401b : (resp.status == 401) = false := by
      simp [h401]
    simp [hmiss, h401b, hok]

/-- C9 witness: with no stored key the request fails fast without reaching the
network; with a key, a 401 response maps to `InvalidCredential` and a 500
response to `HttpError 500`. -/
theorem makeRequest_error_taxonomy_witness :
    (ApiService.makeRequest none { status := 200 }).result
        = Except.error TransportError.MissingCredential ∧
    (ApiService.makeRequest none { status := 200 }).networkAttempted = false ∧
    (ApiService.makeRequest (some "key") { status := 401 }).result
        = Except.error TransportError.InvalidCredential ∧
    (ApiService.makeRequest (some "key") { status := 500 }).result
        = Except.error (TransportError.HttpError 500) := by
  have h1 := (makeRequest_error_taxonomy none { status := 200 }).1 rfl
  have h2 := (makeRequest_error_taxonomy (some "key") { status := 401 }).2.1
      rfl rfl
  have h3 := (makeRequest_error_taxonomy (some "key") { status := 500 }).2.2
      rfl (by decide) (by decide)
  exact ⟨h1.1, h1.2, h2, h3⟩
